import Mathlib

/-!
Verification of the OAuth2 token manager of `cruds` (`src/cruds/auth.py`).

The Python class `OAuth2` is shallowly embedded: each method becomes a pure
Lean function.  Python exceptions are modelled with `Except`; the distinct
Python exception classes raised by the module are the constructors of `Exc`.
External collaborators (the urllib3 transport, `json`, `hashlib`, `hmac`,
`bytes.decode`) are not part of this repository: the transport's response is
an explicit input, and the library primitives are parameters gathered in
`PyPrims` / `CryptoPrims`, quantified over in the theorems.
-/

namespace Cruds

/-- The token state dictionary (`self._state` in `auth.py`).  The fields the
code inspects are explicit; all other server-supplied fields are kept
opaquely in `extra` (string-valued, e.g. `scope`, `error_description`). -/
structure TokenState where
  access_token : Option String := none
  token_type : Option String := none
  expires_in : Option Int := none
  created : Option Int := none
  refresh_token : Option String := none
  extra : List (String × String) := []
deriving DecidableEq, Repr

/-- The empty dictionary `{}`. -/
def emptyState : TokenState := {}

/-- The Python exception classes raised by `auth.py` and its callees. -/
inductive Exc where
  | OAuthAccessTokenError (msg : String)
  | OAuthStateError (msg : String)
  | RuntimeError (msg : String)
  | ValueError (msg : String)
  | HTTPError (msg : String)
  | KeyError
  | IndexError
  | JSONDecodeError
deriving DecidableEq, Repr

/-- The catchable class of an exception: two errors are distinguishable by a
caller's `except` clause exactly when their classes differ. -/
inductive ExcClass where
  | accessTokenError
  | stateError
  | runtimeError
  | valueError
  | httpError
  | keyError
  | indexError
  | jsonDecodeError
deriving DecidableEq, Repr

def excClass : Exc → ExcClass
  | .OAuthAccessTokenError _ => .accessTokenError
  | .OAuthStateError _ => .stateError
  | .RuntimeError _ => .runtimeError
  | .ValueError _ => .valueError
  | .HTTPError _ => .httpError
  | .KeyError => .keyError
  | .IndexError => .indexError
  | .JSONDecodeError => .jsonDecodeError

/-- A urllib3 token-endpoint response: `status`, raw `data` bytes, and the
result of `response.json()` (`none` models a `json.loads` failure).  A JSON
body is the dictionary that becomes the new token state. -/
structure HTTPResponse where
  status : Nat
  data : List Nat := []
  json : Option TokenState := none
deriving Repr

/-- Python standard-library primitives used by `_handle_http_response`:
`bytes.decode("utf-8")` (`none` models `UnicodeDecodeError`) and `str(bytes)`. -/
structure PyPrims where
  utf8_decode : List Nat → Option String
  bytes_repr : List Nat → String

/-- `OAuth2._handle_http_response` (auth.py lines 234-258). -/
def handle_http_response (pp : PyPrims) (r : HTTPResponse) : Except Exc Unit :=
  if 400 ≤ r.status ∧ r.status < 499 then
    match r.json with
    | none => .error .JSONDecodeError
    | some d => .error (.OAuthAccessTokenError ((d.extra.lookup "error_description").getD "Unknown"))
  else if ¬ (200 ≤ r.status ∧ r.status < 299) then
    let m := match pp.utf8_decode r.data with
      | some t => t
      | none => pp.bytes_repr r.data
    .error (.HTTPError ("Error with status code " ++ toString r.status ++ " Message: " ++ m))
  else .ok ()

/-- `OAuth2._make_oauth_request` (auth.py lines 274-316): the POST itself is
the external transport, whose response `r` is an input; the function
interprets the response and returns `response.json()`. -/
def make_oauth_request (pp : PyPrims) (r : HTTPResponse) : Except Exc TokenState :=
  match handle_http_response pp r with
  | .error e => .error e
  | .ok _ =>
    match r.json with
    | none => .error .JSONDecodeError
    | some d => .ok d

/-- `OAuth2._validate_state_parameter` (auth.py lines 212-232), as a pure
transition: input the pending state and the received value, output the
returned boolean and the new pending state.  `if not self._pending_state`
is Python falsiness: `None` or the empty string. -/
def validate_state_parameter (pending : Option String) (received : String) :
    Bool × Option String :=
  if pending = none ∨ pending = some "" then (false, pending)
  else if some received ≠ pending then (false, pending)
  else (true, none)

/-- `get_authorization_url`'s CSRF generation step (auth.py lines 339-340):
`state = self._generate_state_parameter(); self._pending_state = state`.
The random `secrets.token_urlsafe` output is the explicit input `rnd`. -/
def generate_state_parameter (rnd : String) : String × Option String :=
  (rnd, some rnd)

/-- `TOKEN_REFRESH_LEAD_TIME` (auth.py line 21). -/
def TOKEN_REFRESH_LEAD_TIME : Int := 30

/-- `OAuth2.is_valid` (auth.py lines 567-581), with the store's
decrypt boundary transparent: the decrypted state dictionary is the input.
`state.get("token_type", "")` is `token_type.getD ""`; reading
`state["created"]` when absent is a Python `KeyError`. -/
def is_valid (now : Int) (state : TokenState) : Except Exc Bool :=
  if state = emptyState then .ok false
  else if state.access_token = none ∨ state.token_type.getD "" ≠ "Bearer" then
    .error (.RuntimeError "Auth state is missing critical information")
  else
    match state.expires_in with
    | none => .ok true
    | some e =>
      match state.created with
      | none => .error .KeyError
      | some c => .ok (decide (c + e > now + TOKEN_REFRESH_LEAD_TIME))

/-- `OAuth2.access_token` (auth.py lines 526-565), transport response as
input and the store boundary transparent.  The result pairs the returned /
raised value with the finally stored state.  The refresh branch is selected
by Python truthiness of `self._state.get("refresh_token")`; both branches
interpret the transport's response identically.  After a 2xx response the
dictionary is committed with `created = int(time())` stamped, and the final
line is `self._state["access_token"] if self.is_valid() else ""`. -/
def access_token (pp : PyPrims) (now : Int) (s0 : TokenState) (r : HTTPResponse) :
    Except Exc String × TokenState :=
  match is_valid now s0 with
  | .error e => (.error e, s0)
  | .ok true =>
    match s0.access_token with
    | some t => (.ok t, s0)
    | none => (.error .KeyError, s0)
  | .ok false =>
    let req : Except Exc TokenState :=
      match s0.refresh_token with
      | some rt => if rt = "" then make_oauth_request pp r else make_oauth_request pp r
      | none => make_oauth_request pp r
    match req with
    | .error e => (.error e, s0)
    | .ok d =>
      let committed : TokenState := { d with created := some now }
      match is_valid now committed with
      | .error e => (.error e, committed)
      | .ok true =>
        match committed.access_token with
        | some t => (.ok t, committed)
        | none => (.error .KeyError, committed)
      | .ok false => (.ok "", committed)

/-- `OAuth2.exchange_code_for_token` (auth.py lines 365-401): validate the
CSRF state first, then issue the request, then commit with `created`
stamped and return `access_token.get("access_token", "")`.  The result
carries the returned / raised value, the new pending CSRF state and the new
stored state. -/
def exchange_code_for_token (pp : PyPrims) (pending : Option String)
    (stored : TokenState) (now : Int) (code state : String) (r : HTTPResponse) :
    Except Exc String × Option String × TokenState :=
  match validate_state_parameter pending state with
  | (false, p') =>
    (.error (.OAuthStateError "Invalid state parameter - possible CSRF attack"), p', stored)
  | (true, p') =>
    match make_oauth_request pp r with
    | .error e => (.error e, p', stored)
    | .ok d =>
      let committed : TokenState := { d with created := some now }
      (.ok (committed.access_token.getD ""), p', committed)

/-- `OAuth2.parse_authorization_response` (auth.py lines 403-437).  The
input models `parse_qs(urlparse(url).query)`, with the `[0]` projection of
each value list already applied (first value per key). -/
def parse_authorization_response (query : List (String × String)) :
    Except Exc (String × String) :=
  match query.lookup "error" with
  | some err =>
    let desc := (query.lookup "error_description").getD "Unknown"
    .error (.OAuthAccessTokenError ("Authorization failed: " ++ err ++ " - " ++ desc))
  | none =>
    match query.lookup "code" with
    | none => .error (.RuntimeError "Authorization code not found in redirect URL")
    | some code =>
      match query.lookup "state" with
      | none => .error (.RuntimeError "State parameter not found in redirect URL")
      | some st => .ok (code, st)

/-- The configuration guard of `OAuth2.get_authorization_url` (auth.py
lines 333-336): `if not self.authorization_url or not self.redirect_uri`. -/
def get_authorization_url_check (authorization_url redirect_uri : Option String) :
    Except Exc Unit :=
  if authorization_url = none ∨ authorization_url = some ""
      ∨ redirect_uri = none ∨ redirect_uri = some "" then
    .error (.RuntimeError
      "Authorization Code flow requires both authorization_url and redirect_uri to be configured")
  else .ok ()

/-! ### The symmetric encryption module and the token state store -/

/-- The XOR key-stream combine of `_encrypt_with_key` / `_decrypt_with_key`:
byte `i` is combined with `key[i % len(key)]`.  Bytes are `Nat` (values
0-255 in every use); `getD _ 0` is the in-bounds Python indexing, total in
Lean. -/
def cycle_xor (key : List Nat) : Nat → List Nat → List Nat
  | _, [] => []
  | i, b :: bs => Nat.xor b (key.getD (i % key.length) 0) :: cycle_xor key (i + 1) bs

/-- The padding step of `_encrypt_with_key` (auth.py lines 145-147):
`padding_length = 16 - (len(data) % 16)`, append that many bytes each equal
to the padding length. -/
def pad16 (data : List Nat) : List Nat :=
  data ++ List.replicate (16 - data.length % 16) (16 - data.length % 16)

/-- `OAuth2._encrypt_with_key` (auth.py lines 131-160).  The random IV and
the HMAC-SHA256 primitive (`hmac.new(key, msg, sha256).digest()`, an
external library) are explicit inputs. -/
def encrypt_with_key (hmacF : List Nat → List Nat → List Nat)
    (iv data key : List Nat) : List Nat :=
  let ct := cycle_xor key 0 (pad16 data)
  iv ++ ct ++ hmacF key (iv ++ ct)

/-- `OAuth2._encrypt_with_key` returns `iv + bytes(encrypted) + hmac_digest`;
this is that blob with the byte-string concatenations made explicit. -/
theorem encrypt_with_key_eq (hmacF : List Nat → List Nat → List Nat)
    (iv data key : List Nat) :
    encrypt_with_key hmacF iv data key =
      iv ++ (cycle_xor key 0 (pad16 data)
        ++ hmacF key (iv ++ cycle_xor key 0 (pad16 data))) := by
  simp [encrypt_with_key]

/-- `OAuth2._decrypt_with_key` (auth.py lines 162-201).  Mirrors the Python
slicing: `iv = data[:16]`, `hmac_digest = data[-32:]`,
`encrypted = data[16:-32]`; `hmac.compare_digest` is byte-string equality;
reading `decrypted[-1]` on an empty bytearray is a Python `IndexError`. -/
def decrypt_with_key (hmacF : List Nat → List Nat → List Nat)
    (encrypted_data key : List Nat) : Except Exc (List Nat) :=
  if encrypted_data.length < 48 then .error (.ValueError "Encrypted data too short")
  else
    let iv := encrypted_data.take 16
    let hmac_digest := encrypted_data.drop (encrypted_data.length - 32)
    let encrypted := (encrypted_data.drop 16).take (encrypted_data.length - 48)
    if hmac_digest ≠ hmacF key (iv ++ encrypted) then
      .error (.ValueError "HMAC verification failed")
    else
      let decrypted := cycle_xor key 0 encrypted
      match decrypted.getLast? with
      | none => .error .IndexError
      | some padding_length =>
        if 16 < padding_length ∨ padding_length = 0 then
          .error (.ValueError "Invalid padding")
        else .ok (decrypted.take (decrypted.length - padding_length))

/-- The constant legacy salt `b"cruds_oauth_salt"` (auth.py line 490),
as its UTF-8 bytes. -/
def old_salt : List Nat :=
  [99, 114, 117, 100, 115, 95, 111, 97, 117, 116, 104, 95, 115, 97, 108, 116]

/-- External cryptographic and serialization primitives used by
`_encrypt_state` / `_decrypt_state` (`hashlib`, `hmac`, `json` — standard
library, not repository code), as parameters:
`sha256_fixed_key` is `hashlib.sha256(self._encryption_key.encode()).digest()`;
`generate_encryption_key` is `OAuth2._generate_encryption_key` (auth.py
lines 113-129), PBKDF2-HMAC-SHA256 of `client_secret` with the given salt,
100000 iterations; `hmac_sha256 key msg` is the HMAC digest; `dumps` is
`json.dumps(state).encode("utf-8")` and `loads` is
`json.loads(bytes.decode("utf-8"))`, `none` when either raises. -/
structure CryptoPrims where
  sha256_fixed_key : List Nat
  generate_encryption_key : List Nat → List Nat
  hmac_sha256 : List Nat → List Nat → List Nat
  dumps : TokenState → List Nat
  loads : List Nat → Option TokenState

/-- `OAuth2._encrypt_state` (auth.py lines 439-465) with a configured fixed
`encryption_key`: no salt prefix.  `if not state: return b""`. -/
def encrypt_state_fixed (P : CryptoPrims) (iv : List Nat) (state : TokenState) :
    List Nat :=
  if state = emptyState then []
  else encrypt_with_key P.hmac_sha256 iv (P.dumps state) P.sha256_fixed_key

/-- `OAuth2._encrypt_state` (auth.py lines 439-465) in dynamic mode (no
fixed key): a fresh random 16-byte `salt` (explicit input) derives the key
and prefixes the blob. -/
def encrypt_state_dynamic (P : CryptoPrims) (salt iv : List Nat)
    (state : TokenState) : List Nat :=
  if state = emptyState then []
  else salt ++ encrypt_with_key P.hmac_sha256 iv (P.dumps state)
    (P.generate_encryption_key salt)

/-- The inner `try` of `_decrypt_state`'s dynamic branch (auth.py lines
489-494): decrypt the whole blob under the legacy fixed-salt key and parse
the JSON; any exception (integrity or JSON) selects the fallback, so the
attempt's outcome is an `Option`. -/
def legacy_attempt (P : CryptoPrims) (encrypted_data : List Nat) :
    Option TokenState :=
  match decrypt_with_key P.hmac_sha256 encrypted_data
      (P.generate_encryption_key old_salt) with
  | .error _ => none
  | .ok pt => P.loads pt

/-- `OAuth2._decrypt_state` (auth.py lines 467-514) with a fixed key.  The
outer `except Exception` turns every failure into `{}`. -/
def decrypt_state_fixed (P : CryptoPrims) (encrypted_data : List Nat) : TokenState :=
  if encrypted_data = [] then emptyState
  else
    match decrypt_with_key P.hmac_sha256 encrypted_data P.sha256_fixed_key with
    | .error _ => emptyState
    | .ok pt => (P.loads pt).getD emptyState

/-- `OAuth2._decrypt_state` (auth.py lines 467-514) in dynamic mode: the
legacy fixed-salt attempt first; on its failure, if the blob has at least
16 bytes, the first 16 bytes are the salt and the rest the blob; every
remaining failure is caught by the outer `except` and yields `{}`. -/
def decrypt_state_dynamic (P : CryptoPrims) (encrypted_data : List Nat) : TokenState :=
  if encrypted_data = [] then emptyState
  else
    match legacy_attempt P encrypted_data with
    | some s => s
    | none =>
      if 16 ≤ encrypted_data.length then
        match decrypt_with_key P.hmac_sha256 (encrypted_data.drop 16)
            (P.generate_encryption_key (encrypted_data.take 16)) with
        | .error _ => emptyState
        | .ok pt => (P.loads pt).getD emptyState
      else emptyState

/-! ### Properties of the encryption primitives -/

theorem cycle_xor_length (key : List Nat) (i : Nat) (data : List Nat) :
    (cycle_xor key i data).length = data.length := by
  induction data generalizing i with
  | nil => rfl
  | cons b bs ih => simp [cycle_xor, ih]

/-- Combining with the same key stream twice restores the plaintext. -/
theorem cycle_xor_cycle_xor (key : List Nat) (i : Nat) (data : List Nat) :
    cycle_xor key i (cycle_xor key i data) = data := by
  induction data generalizing i with
  | nil => rfl
  | cons b bs ih =>
    simp only [cycle_xor, ih]
    congr 1
    show (b ^^^ _) ^^^ _ = b
    rw [Nat.xor_assoc, Nat.xor_self, Nat.xor_zero]

theorem pad16_pos (data : List Nat) : 1 ≤ 16 - data.length % 16 := by
  have h : data.length % 16 < 16 := Nat.mod_lt _ (by decide)
  omega

theorem pad16_length (data : List Nat) :
    (pad16 data).length = data.length + (16 - data.length % 16) := by
  simp [pad16]

/-- The final byte of a padded plaintext is the declared padding length. -/
theorem pad16_getLast? (data : List Nat) :
    (pad16 data).getLast? = some (16 - data.length % 16) := by
  have h := pad16_pos data
  unfold pad16
  rcases Nat.exists_eq_add_of_le h with ⟨n, hn⟩
  rw [hn]
  rw [show 1 + n = n + 1 by omega]
  rw [List.replicate_succ', ← List.append_assoc]
  exact List.getLast?_concat _

/-- Stripping the declared padding recovers the plaintext. -/
theorem pad16_unpad (data : List Nat) :
    (pad16 data).take ((pad16 data).length - (16 - data.length % 16)) = data := by
  rw [pad16_length]
  rw [show data.length + (16 - data.length % 16) - (16 - data.length % 16)
      = data.length by omega]
  unfold pad16
  exact List.take_left data _

theorem take_len_left (a b : List Nat) (n : Nat) (h : a.length = n) :
    (a ++ b).take n = a := by
  subst h; exact List.take_left a b

theorem drop_len_left (a b : List Nat) (n : Nat) (h : a.length = n) :
    (a ++ b).drop n = b := by
  subst h; exact List.drop_left a b

/-- How `_decrypt_with_key` parses a well-shaped blob `iv || ct || mac`
whose trailing HMAC matches: it reaches the pad-stripping step on the
XOR-decrypted ciphertext. -/
theorem decrypt_with_key_parse (hmacF : List Nat → List Nat → List Nat)
    (iv ct key : List Nat) (hiv : iv.length = 16)
    (hmac : (hmacF key (iv ++ ct)).length = 32) :
    decrypt_with_key hmacF (iv ++ (ct ++ hmacF key (iv ++ ct))) key =
      match (cycle_xor key 0 ct).getLast? with
      | none => .error .IndexError
      | some padding_length =>
        if 16 < padding_length ∨ padding_length = 0 then
          .error (.ValueError "Invalid padding")
        else .ok ((cycle_xor key 0 ct).take
          ((cycle_xor key 0 ct).length - padding_length)) := by
  have hL : (iv ++ (ct ++ hmacF key (iv ++ ct))).length = 48 + ct.length := by
    simp only [List.length_append, hiv, hmac]; omega
  have h1 : (iv ++ (ct ++ hmacF key (iv ++ ct))).take 16 = iv :=
    take_len_left _ _ _ hiv
  have h2 : (iv ++ (ct ++ hmacF key (iv ++ ct))).drop (48 + ct.length - 32)
      = hmacF key (iv ++ ct) := by
    rw [← List.append_assoc]
    exact drop_len_left _ _ _ (by simp only [List.length_append, hiv]; omega)
  have h3 : ((iv ++ (ct ++ hmacF key (iv ++ ct))).drop 16).take
      (48 + ct.length - 48) = ct := by
    rw [drop_len_left _ _ _ hiv]
    exact take_len_left _ _ _ (by omega)
  simp only [decrypt_with_key]
  rw [hL]
  rw [if_neg (show ¬ 48 + ct.length < 48 by omega)]
  rw [h1, h2, h3]
  rw [if_neg (show ¬ hmacF key (iv ++ ct) ≠ hmacF key (iv ++ ct) by simp)]

/-- Round trip of the raw encryption module: decrypting an encryption under
the same key recovers the plaintext, for any HMAC primitive with 32-byte
digests. -/
theorem decrypt_encrypt_with_key (hmacF : List Nat → List Nat → List Nat)
    (iv data key : List Nat) (hiv : iv.length = 16)
    (hmac : (hmacF key (iv ++ cycle_xor key 0 (pad16 data))).length = 32) :
    decrypt_with_key hmacF (encrypt_with_key hmacF iv data key) key = .ok data := by
  rw [encrypt_with_key_eq,
    decrypt_with_key_parse hmacF iv (cycle_xor key 0 (pad16 data)) key hiv hmac,
    cycle_xor_cycle_xor]
  have h1 := pad16_pos data
  simp only [pad16_getLast?]
  rw [if_neg (show ¬ (16 < 16 - data.length % 16 ∨ 16 - data.length % 16 = 0)
    by omega)]
  rw [pad16_unpad]

theorem encrypt_with_key_ne_nil (hmacF : List Nat → List Nat → List Nat)
    (iv data key : List Nat) (hiv : iv.length = 16) :
    encrypt_with_key hmacF iv data key ≠ [] := by
  rw [encrypt_with_key_eq]
  intro h
  have h2 := congrArg List.length h
  simp only [List.length_append, hiv, List.length_nil] at h2
  omega

/-- The fixed-key store write on a non-empty state. -/
theorem encrypt_state_fixed_eq (P : CryptoPrims) (iv : List Nat)
    (s : TokenState) (hs : s ≠ emptyState) :
    encrypt_state_fixed P iv s
      = encrypt_with_key P.hmac_sha256 iv (P.dumps s) P.sha256_fixed_key := by
  simp [encrypt_state_fixed, hs]

/-- The dynamic-mode store write on a non-empty state. -/
theorem encrypt_state_dynamic_eq (P : CryptoPrims) (salt iv : List Nat)
    (s : TokenState) (hs : s ≠ emptyState) :
    encrypt_state_dynamic P salt iv s
      = salt ++ encrypt_with_key P.hmac_sha256 iv (P.dumps s)
          (P.generate_encryption_key salt) := by
  simp [encrypt_state_dynamic, hs]

/-! ### Claim theorems: the encryption layer -/

/-- C5: for every non-empty TokenState `s`, decrypting the encryption of
`s` yields `s` again, in fixed-key mode and in dynamic-salt mode (where the
fresh salt-prefixed blob is recovered after the legacy fixed-salt attempt
fails its integrity check), and two dynamic encryptions of the identical
`s` under distinct fresh 16-byte salts produce different ciphertext
blobs. -/
theorem state_roundtrip_and_salt_freshness
    (P : CryptoPrims) (s : TokenState) (ivf iv₁ iv₂ salt₁ salt₂ : List Nat)
    (hs : s ≠ emptyState)
    (hm : ∀ k m, (P.hmac_sha256 k m).length = 32)
    (hivf : ivf.length = 16) (hiv₁ : iv₁.length = 16)
    (hsalt₁ : salt₁.length = 16) (hsalt₂ : salt₂.length = 16)
    (hld : P.loads (P.dumps s) = some s)
    (hlegacy : legacy_attempt P (encrypt_state_dynamic P salt₁ iv₁ s) = none)
    (hne : salt₁ ≠ salt₂) :
    decrypt_state_fixed P (encrypt_state_fixed P ivf s) = s
    ∧ decrypt_state_dynamic P (encrypt_state_dynamic P salt₁ iv₁ s) = s
    ∧ encrypt_state_dynamic P salt₁ iv₁ s ≠ encrypt_state_dynamic P salt₂ iv₂ s := by
  refine ⟨?_, ?_, ?_⟩
  · rw [encrypt_state_fixed_eq P ivf s hs]
    unfold decrypt_state_fixed
    rw [if_neg (encrypt_with_key_ne_nil _ _ _ _ hivf)]
    rw [decrypt_encrypt_with_key _ _ _ _ hivf (hm _ _)]
    simp [hld]
  · rw [encrypt_state_dynamic_eq P salt₁ iv₁ s hs] at hlegacy ⊢
    have hblob : (salt₁ ++ encrypt_with_key P.hmac_sha256 iv₁ (P.dumps s)
        (P.generate_encryption_key salt₁)) ≠ [] := by
      intro h
      have h2 := congrArg List.length h
      simp only [List.length_append, hsalt₁, List.length_nil] at h2
      omega
    unfold decrypt_state_dynamic
    rw [if_neg hblob, hlegacy]
    have hlen : 16 ≤ (salt₁ ++ encrypt_with_key P.hmac_sha256 iv₁ (P.dumps s)
        (P.generate_encryption_key salt₁)).length := by
      simp only [List.length_append, hsalt₁]; omega
    rw [if_pos hlen]
    rw [drop_len_left _ _ _ hsalt₁, take_len_left _ _ _ hsalt₁]
    rw [decrypt_encrypt_with_key _ _ _ _ hiv₁ (hm _ _)]
    simp [hld]
  · intro h
    have h1 : (encrypt_state_dynamic P salt₁ iv₁ s).take 16 = salt₁ := by
      rw [encrypt_state_dynamic_eq P salt₁ iv₁ s hs]
      exact take_len_left _ _ _ hsalt₁
    have h2 : (encrypt_state_dynamic P salt₂ iv₂ s).take 16 = salt₂ := by
      rw [encrypt_state_dynamic_eq P salt₂ iv₂ s hs]
      exact take_len_left _ _ _ hsalt₂
    rw [h, h2] at h1
    exact hne h1.symm

/-- C8: a blob produced by the legacy fixed-salt scheme (encrypted under
the key derived from the constant legacy salt, no salt prefix) is still
decrypted correctly by the dynamic-mode store read: the legacy derivation
is attempted first and recovers `s`. -/
theorem legacy_blob_roundtrip (P : CryptoPrims) (s : TokenState) (iv : List Nat)
    (hiv : iv.length = 16)
    (hm : ∀ k m, (P.hmac_sha256 k m).length = 32)
    (hld : P.loads (P.dumps s) = some s) :
    decrypt_state_dynamic P
      (encrypt_with_key P.hmac_sha256 iv (P.dumps s)
        (P.generate_encryption_key old_salt)) = s := by
  unfold decrypt_state_dynamic
  rw [if_neg (encrypt_with_key_ne_nil _ _ _ _ hiv)]
  have hleg : legacy_attempt P
      (encrypt_with_key P.hmac_sha256 iv (P.dumps s)
        (P.generate_encryption_key old_salt)) = some s := by
    unfold legacy_attempt
    rw [decrypt_encrypt_with_key _ _ _ _ hiv (hm _ _)]
    exact hld
  rw [hleg]

theorem decrypt_with_key_short (hmacF : List Nat → List Nat → List Nat)
    (blob key : List Nat) (h : blob.length < 48) :
    decrypt_with_key hmacF blob key
      = .error (.ValueError "Encrypted data too short") := by
  rw [decrypt_with_key, if_pos h]

/-- C6: the store read never raises: the empty buffer reads as the empty
state; any buffer shorter than 48 bytes reads as the empty state; and in
general the read is the empty state unless the full decrypt-and-parse
pipeline succeeded, in which case it is the parsed state. -/
theorem decrypt_state_total (P : CryptoPrims) :
    (decrypt_state_fixed P [] = emptyState
      ∧ decrypt_state_dynamic P [] = emptyState)
    ∧ (∀ blob : List Nat, blob.length < 48 →
        decrypt_state_fixed P blob = emptyState
        ∧ decrypt_state_dynamic P blob = emptyState)
    ∧ (∀ blob : List Nat, decrypt_state_fixed P blob = emptyState
        ∨ ∃ pt s, decrypt_with_key P.hmac_sha256 blob P.sha256_fixed_key = .ok pt
            ∧ P.loads pt = some s ∧ decrypt_state_fixed P blob = s)
    ∧ (∀ blob : List Nat, decrypt_state_dynamic P blob = emptyState
        ∨ (∃ s, legacy_attempt P blob = some s ∧ decrypt_state_dynamic P blob = s)
        ∨ ∃ pt s, 16 ≤ blob.length
            ∧ decrypt_with_key P.hmac_sha256 (blob.drop 16)
                (P.generate_encryption_key (blob.take 16)) = .ok pt
            ∧ P.loads pt = some s ∧ decrypt_state_dynamic P blob = s) := by
  refine ⟨⟨rfl, rfl⟩, ?_, ?_, ?_⟩
  · intro blob hlen
    constructor
    · by_cases hnil : blob = []
      · simp [hnil, decrypt_state_fixed]
      · unfold decrypt_state_fixed
        rw [if_neg hnil, decrypt_with_key_short _ _ _ hlen]
    · by_cases hnil : blob = []
      · simp [hnil, decrypt_state_dynamic]
      · unfold decrypt_state_dynamic
        rw [if_neg hnil]
        have hleg : legacy_attempt P blob = none := by
          unfold legacy_attempt
          rw [decrypt_with_key_short _ _ _ hlen]
        rw [hleg]
        by_cases h16 : 16 ≤ blob.length
        · rw [if_pos h16, decrypt_with_key_short]
          simp only [List.length_drop]
          omega
        · rw [if_neg h16]
  · intro blob
    by_cases hnil : blob = []
    · left; simp [hnil, decrypt_state_fixed]
    · unfold decrypt_state_fixed
      rw [if_neg hnil]
      cases hdk : decrypt_with_key P.hmac_sha256 blob P.sha256_fixed_key with
      | error e => left; rfl
      | ok pt =>
        cases hl : P.loads pt with
        | none => left; simp [hl]
        | some s => right; exact ⟨pt, s, rfl, hl, by simp [hl]⟩
  · intro blob
    by_cases hnil : blob = []
    · left; simp [hnil, decrypt_state_dynamic]
    · unfold decrypt_state_dynamic
      rw [if_neg hnil]
      cases hleg : legacy_attempt P blob with
      | some s => right; left; exact ⟨s, rfl, rfl⟩
      | none =>
        by_cases h16 : 16 ≤ blob.length
        · rw [if_pos h16]
          cases hdk : decrypt_with_key P.hmac_sha256 (blob.drop 16)
              (P.generate_encryption_key (blob.take 16)) with
          | error e => left; rfl
          | ok pt =>
            cases hl : P.loads pt with
            | none => left; simp [hl]
            | some s => right; right; exact ⟨pt, s, h16, rfl, hl, by simp [hl]⟩
        · rw [if_neg h16]; left; rfl

/-- C9: a 48-byte blob — 16-byte IV, zero ciphertext bytes, trailing HMAC
that verifies — makes the raw `_decrypt_with_key` fail with Python's
`IndexError` (reading `decrypted[-1]` from the empty plaintext) instead of
the `ValueError` used for malformed input. -/
theorem decrypt_with_key_index_error (hmacF : List Nat → List Nat → List Nat)
    (iv key : List Nat) (hiv : iv.length = 16)
    (hm : (hmacF key iv).length = 32) :
    (iv ++ hmacF key iv).length = 48
    ∧ decrypt_with_key hmacF (iv ++ hmacF key iv) key = .error .IndexError := by
  constructor
  · simp [hiv, hm]
  · have h := decrypt_with_key_parse hmacF iv [] key hiv (by simpa using hm)
    simpa using h

/-! ### Properties of `is_valid` and the grant flows -/

theorem is_valid_malformed (now : Int) (s : TokenState) (hne : s ≠ emptyState)
    (hmal : s.access_token = none ∨ s.token_type.getD "" ≠ "Bearer") :
    is_valid now s = .error (.RuntimeError "Auth state is missing critical information") := by
  unfold is_valid
  rw [if_neg hne, if_pos hmal]

theorem is_valid_no_expiry (now : Int) (s : TokenState)
    (h1 : s.access_token ≠ none) (h2 : s.token_type = some "Bearer")
    (h3 : s.expires_in = none) :
    is_valid now s = .ok true := by
  have hne : s ≠ emptyState := by
    intro h; rw [h] at h2; simp [emptyState] at h2
  unfold is_valid
  rw [if_neg hne, if_neg (by simp [h1, h2]), h3]

theorem is_valid_expiry (now : Int) (s : TokenState) (c e : Int)
    (h1 : s.access_token ≠ none) (h2 : s.token_type = some "Bearer")
    (h3 : s.expires_in = some e) (h4 : s.created = some c) :
    is_valid now s = .ok (decide (c + e > now + TOKEN_REFRESH_LEAD_TIME)) := by
  have hne : s ≠ emptyState := by
    intro h; rw [h] at h2; simp [emptyState] at h2
  unfold is_valid
  rw [if_neg hne, if_neg (by simp [h1, h2]), h3, h4]

/-- C4: `is_valid` is false on the empty state, raises on a non-empty
state that is missing `access_token` or whose `token_type` is not
"Bearer", is true on a well-formed state without `expires_in`, and on a
well-formed expiring state is true exactly when
`created + expires_in > now + 30`, i.e. false exactly when
`now ≥ created + expires_in - 30`. -/
theorem is_valid_contract (now : Int) :
    is_valid now emptyState = .ok false
    ∧ (∀ s : TokenState, s ≠ emptyState →
        s.access_token = none ∨ s.token_type.getD "" ≠ "Bearer" →
        is_valid now s
          = .error (.RuntimeError "Auth state is missing critical information"))
    ∧ (∀ s : TokenState, s.access_token ≠ none → s.token_type = some "Bearer" →
        s.expires_in = none → is_valid now s = .ok true)
    ∧ (∀ (s : TokenState) (c e : Int), s.access_token ≠ none →
        s.token_type = some "Bearer" → s.expires_in = some e → s.created = some c →
        (is_valid now s = .ok true ↔ c + e > now + 30)
        ∧ (is_valid now s = .ok false ↔ now ≥ c + e - 30)) := by
  refine ⟨by simp [is_valid], is_valid_malformed now, is_valid_no_expiry now, ?_⟩
  intro s c e h1 h2 h3 h4
  rw [is_valid_expiry now s c e h1 h2 h3 h4]
  constructor
  · simp only [Except.ok.injEq, decide_eq_true_eq, TOKEN_REFRESH_LEAD_TIME]
  · constructor
    · intro h
      have h' : decide (c + e > now + TOKEN_REFRESH_LEAD_TIME) = false :=
        Except.ok.inj h
      simp only [decide_eq_false_iff_not, TOKEN_REFRESH_LEAD_TIME] at h'
      omega
    · intro h
      have h' : decide (c + e > now + TOKEN_REFRESH_LEAD_TIME) = false := by
        simp only [decide_eq_false_iff_not, TOKEN_REFRESH_LEAD_TIME]
        omega
      rw [h']

/-- C7: CSRF state validation is single-use and fails closed.  After
`generate` stores a (non-empty) pending state: a matching `validate`
returns true and clears it, so an immediate repeat returns false; a
non-matching `validate` returns false and leaves the pending state, so a
later correct `validate` still returns true; `validate` with no pending
state returns false without side effects. -/
theorem csrf_single_use (rnd w : String) (hne : rnd ≠ "") (hwne : w ≠ rnd) :
    (generate_state_parameter rnd).2 = some rnd
    ∧ validate_state_parameter (some rnd) rnd = (true, none)
    ∧ validate_state_parameter ((validate_state_parameter (some rnd) rnd).2) rnd
        = (false, none)
    ∧ validate_state_parameter (some rnd) w = (false, some rnd)
    ∧ validate_state_parameter ((validate_state_parameter (some rnd) w).2) rnd
        = (true, none)
    ∧ (∀ v : String, validate_state_parameter none v = (false, none)) := by
  have hmatch : validate_state_parameter (some rnd) rnd = (true, none) := by
    simp [validate_state_parameter, hne]
  have hmiss : validate_state_parameter (some rnd) w = (false, some rnd) := by
    simp [validate_state_parameter, hne, hwne]
  refine ⟨rfl, hmatch, ?_, hmiss, ?_, ?_⟩
  · rw [hmatch]; simp [validate_state_parameter]
  · rw [hmiss]; exact hmatch
  · intro v; simp [validate_state_parameter]

/-- C10: in `exchange_code_for_token` the pending CSRF state is consumed
before the token request: when the state matches but the request fails,
the error propagates with the pending state already cleared and the stored
TokenState unchanged, and retrying the same call signals the CSRF error. -/
theorem exchange_consumes_state_first (pp : PyPrims) (stored : TokenState)
    (now : Int) (code st : String) (r : HTTPResponse) (e : Exc)
    (hne : st ≠ "") (hfail : make_oauth_request pp r = .error e) :
    exchange_code_for_token pp (some st) stored now code st r
      = (.error e, none, stored)
    ∧ exchange_code_for_token pp none stored now code st r
        = (.error (.OAuthStateError "Invalid state parameter - possible CSRF attack"),
            none, stored) := by
  constructor
  · have hv : validate_state_parameter (some st) st = (true, none) := by
      simp [validate_state_parameter, hne]
    simp [exchange_code_for_token, hv, hfail]
  · have hv : validate_state_parameter none st = (false, none) := by
      simp [validate_state_parameter]
    simp [exchange_code_for_token, hv]

/-- A committed response dictionary, with `created` stamped, is never the
empty dictionary. -/
theorem committed_ne_empty (d : TokenState) (now : Int) :
    ({ d with created := some now } : TokenState) ≠ emptyState := by
  intro h
  have h2 := congrArg TokenState.created h
  simp [emptyState] at h2

/-- C1 (amended): when the freshly committed state is malformed (missing
`access_token` or `token_type` ≠ "Bearer"), the re-check inside
`access_token()` signals the integrity fault (`RuntimeError`), with the
malformed state already committed. -/
theorem access_token_integrity_fault (pp : PyPrims) (now : Int)
    (s0 d : TokenState) (r : HTTPResponse)
    (h0 : is_valid now s0 = .ok false)
    (hreq : make_oauth_request pp r = .ok d)
    (hmal : d.access_token = none ∨ d.token_type.getD "" ≠ "Bearer") :
    access_token pp now s0 r
      = (.error (.RuntimeError "Auth state is missing critical information"),
          { d with created := some now }) := by
  have hreq' : (match s0.refresh_token with
      | some rt => make_oauth_request pp r
      | none => make_oauth_request pp r) = .ok d := by
    cases s0.refresh_token <;> exact hreq
  have hmal' : is_valid now { d with created := some now }
      = .error (.RuntimeError "Auth state is missing critical information") :=
    is_valid_malformed now _ (committed_ne_empty d now) hmal
  simp only [access_token, h0, ite_self]
  rw [hreq']
  simp [hmal']

/-! ### Concrete fixtures -/

/-- Concrete standard-library primitives for evaluating fixtures: every
body decodes to the empty text. -/
def pp0 : PyPrims :=
  { utf8_decode := fun _ => some "", bytes_repr := fun _ => "" }

/-- A 200 response whose body is a well-formed but already expired token
(`expires_in = 0`). -/
def expired_response : HTTPResponse :=
  { status := 200, data := [],
    json := some { access_token := some "T", token_type := some "Bearer",
                   expires_in := some 0 } }

/-- The state committed by `access_token` at time 100 from
`expired_response`. -/
def expired_committed : TokenState :=
  { access_token := some "T", token_type := some "Bearer",
    expires_in := some 0, created := some 100 }

/-- C1 (counterexample): a successful token response that is well-formed
but fails the expiry lead-time re-check makes `access_token()` return the
empty string — not signal an integrity fault — with the invalid state
committed. -/
theorem access_token_invalid_commit_returns_empty :
    access_token pp0 100 emptyState expired_response = (.ok "", expired_committed)
    ∧ is_valid 100 expired_committed = .ok false := by
  exact ⟨rfl, rfl⟩

/-- Modelled from the spec (the reference response interpretation of claim
C2): status 400-499 inclusive fails with the access-token error, message
from the JSON body's `error_description` when present, else "Unknown";
status 200-299 inclusive succeeds; every other status fails with the
transport error naming the status and the body text. -/
def handle_http_response_spec (pp : PyPrims) (r : HTTPResponse) : Except Exc Unit :=
  if 400 ≤ r.status ∧ r.status ≤ 499 then
    .error (.OAuthAccessTokenError
      (match r.json with
        | some d => (d.extra.lookup "error_description").getD "Unknown"
        | none => "Unknown"))
  else if 200 ≤ r.status ∧ r.status ≤ 299 then .ok ()
  else
    .error (.HTTPError ("Error with status code " ++ toString r.status ++ " Message: "
      ++ (match pp.utf8_decode r.data with
          | some t => t
          | none => pp.bytes_repr r.data)))

/-- A 499 response with a structured OAuth error body. -/
def response_499 : HTTPResponse :=
  { status := 499, data := [],
    json := some { extra := [("error_description", "oops")] } }

/-- A 299 (2xx success) response with a well-formed token body. -/
def response_299 : HTTPResponse :=
  { status := 299, data := [],
    json := some { access_token := some "T", token_type := some "Bearer" } }

/-- C2: the implemented response interpretation deviates from the
reference one at the range edges: status 499 (a 4xx client error) and
status 299 (a 2xx success) both take the transport-error branch, because
the guards `400 <= status < 499` and `200 <= status < 299` exclude their
upper bounds. -/
theorem handle_http_response_range_bug :
    handle_http_response pp0 response_499
      = .error (.HTTPError "Error with status code 499 Message: ")
    ∧ handle_http_response_spec pp0 response_499
      = .error (.OAuthAccessTokenError "oops")
    ∧ handle_http_response pp0 response_299
      = .error (.HTTPError "Error with status code 299 Message: ")
    ∧ handle_http_response_spec pp0 response_299 = .ok () := by
  exact ⟨rfl, rfl, rfl, rfl⟩

/-- A 400 response with a structured OAuth error body. -/
def response_400 : HTTPResponse :=
  { status := 400, data := [],
    json := some { extra := [("error_description", "oops")] } }

/-- C3 (counterexample): the redirect carrying an `error` parameter and a
4xx token-endpoint rejection raise the same exception class
(`OAuthAccessTokenError`), and a missing-configuration failure and a
corrupted-state fault raise the same exception class (`RuntimeError`):
these error conditions are not pairwise distinguishable by the caller. -/
theorem error_kinds_collide :
    parse_authorization_response [("error", "access_denied")]
      = .error (.OAuthAccessTokenError "Authorization failed: access_denied - Unknown")
    ∧ handle_http_response pp0 response_400
      = .error (.OAuthAccessTokenError "oops")
    ∧ excClass (.OAuthAccessTokenError "Authorization failed: access_denied - Unknown")
      = excClass (.OAuthAccessTokenError "oops")
    ∧ get_authorization_url_check none none
      = .error (.RuntimeError
          "Authorization Code flow requires both authorization_url and redirect_uri to be configured")
    ∧ is_valid 0 { token_type := some "Bearer" }
      = .error (.RuntimeError "Auth state is missing critical information")
    ∧ excClass (.RuntimeError
          "Authorization Code flow requires both authorization_url and redirect_uri to be configured")
      = excClass (.RuntimeError "Auth state is missing critical information") := by
  exact ⟨rfl, rfl, rfl, rfl, rfl, rfl⟩

/-- C3 (amended): the propagated errors surface as four catchable kinds.
4xx token-endpoint rejections and authorization-redirect errors both raise
`OAuthAccessTokenError`; transport failures raise the HTTP error; CSRF
validation failures raise `OAuthStateError`; missing configuration and
corrupted-state faults both raise `RuntimeError`.  The four kinds are
pairwise distinguishable, but the redirect error is not distinguishable
from a 4xx rejection, nor a configuration failure from an integrity
fault. -/
theorem error_kind_taxonomy :
    (∀ (pp : PyPrims) (r : HTTPResponse) (d : TokenState), r.json = some d →
      400 ≤ r.status → r.status < 499 →
      ∃ m, handle_http_response pp r = .error (.OAuthAccessTokenError m))
    ∧ (∀ (pp : PyPrims) (r : HTTPResponse),
      ¬ (400 ≤ r.status ∧ r.status < 499) → ¬ (200 ≤ r.status ∧ r.status < 299) →
      ∃ m, handle_http_response pp r = .error (.HTTPError m))
    ∧ (∀ (q : List (String × String)) (err : String), q.lookup "error" = some err →
      ∃ m, parse_authorization_response q = .error (.OAuthAccessTokenError m))
    ∧ (∀ a b : Option String, get_authorization_url_check a b = .ok ()
      ∨ get_authorization_url_check a b = .error (.RuntimeError
          "Authorization Code flow requires both authorization_url and redirect_uri to be configured"))
    ∧ (∀ (now : Int) (s : TokenState), s ≠ emptyState →
      s.access_token = none ∨ s.token_type.getD "" ≠ "Bearer" →
      is_valid now s = .error (.RuntimeError "Auth state is missing critical information"))
    ∧ (∀ (pp : PyPrims) (pending : Option String) (stored : TokenState) (now : Int)
        (code st : String) (r : HTTPResponse),
      (validate_state_parameter pending st).1 = false →
      (exchange_code_for_token pp pending stored now code st r).1
        = .error (.OAuthStateError "Invalid state parameter - possible CSRF attack"))
    ∧ ([ExcClass.accessTokenError, ExcClass.stateError, ExcClass.httpError,
        ExcClass.runtimeError].Pairwise (· ≠ ·)) := by
  refine ⟨?_, ?_, ?_, ?_, is_valid_malformed, ?_, by decide⟩
  · intro pp r d hj h1 h2
    have h : handle_http_response pp r = .error (.OAuthAccessTokenError
        ((d.extra.lookup "error_description").getD "Unknown")) := by
      unfold handle_http_response
      rw [if_pos ⟨h1, h2⟩, hj]
    exact ⟨_, h⟩
  · intro pp r hA hB
    have h : handle_http_response pp r = .error (.HTTPError
        ("Error with status code " ++ toString r.status ++ " Message: "
          ++ (match pp.utf8_decode r.data with
              | some t => t
              | none => pp.bytes_repr r.data))) := by
      unfold handle_http_response
      rw [if_neg hA, if_pos hB]
    exact ⟨_, h⟩
  · intro q err h
    have h2 : parse_authorization_response q = .error (.OAuthAccessTokenError
        ("Authorization failed: " ++ err ++ " - "
          ++ (q.lookup "error_description").getD "Unknown")) := by
      unfold parse_authorization_response
      rw [h]
    exact ⟨_, h2⟩
  · intro a b
    by_cases h : a = none ∨ a = some "" ∨ b = none ∨ b = some ""
    · right; unfold get_authorization_url_check; rw [if_pos h]
    · left; unfold get_authorization_url_check; rw [if_neg h]
  · intro pp pending stored now code st r h
    unfold exchange_code_for_token
    rcases hv : validate_state_parameter pending st with ⟨b, p'⟩
    rw [hv] at h
    simp only at h
    subst h
    rfl

/-! ### Witnesses -/

/-- A 200 response whose body lacks `access_token` (the fixture of
`test_OAuth2_access_token_returns_empty_string_on_invalid`). -/
def missing_token_response : HTTPResponse :=
  { status := 200, data := [],
    json := some { token_type := some "Bearer", expires_in := some 60 } }

def missing_token_committed : TokenState :=
  { token_type := some "Bearer", expires_in := some 60, created := some 50 }

theorem access_token_integrity_fault_witness :
    access_token pp0 50 emptyState missing_token_response
      = (.error (.RuntimeError "Auth state is missing critical information"),
          missing_token_committed) :=
  access_token_integrity_fault pp0 50 emptyState
    { token_type := some "Bearer", expires_in := some 60 }
    missing_token_response rfl rfl (Or.inl rfl)

theorem error_kind_taxonomy_witness :
    (exchange_code_for_token pp0 none emptyState 0 "c" "s" response_400).1
      = .error (.OAuthStateError "Invalid state parameter - possible CSRF attack") :=
  error_kind_taxonomy.2.2.2.2.2.1 pp0 none emptyState 0 "c" "s" response_400 rfl

/-- A token created at 1000 that expires 60 seconds later. -/
def token_expiring_60 : TokenState :=
  { access_token := some "T", token_type := some "Bearer",
    expires_in := some 60, created := some 1000 }

/-- A token created at 1000 that expires 25 seconds later (inside the
30-second lead time). -/
def token_expiring_25 : TokenState :=
  { access_token := some "T", token_type := some "Bearer",
    expires_in := some 25, created := some 1000 }

/-- The spec's concrete validity examples: at `now = 1000`, a token created
now with `expires_in = 60` is valid and one with `expires_in = 25` is
already invalid (inside the 30-second lead time). -/
theorem is_valid_contract_witness :
    is_valid 1000 token_expiring_60 = .ok true
    ∧ is_valid 1000 token_expiring_25 = .ok false := by
  constructor
  · exact ((is_valid_contract 1000).2.2.2 token_expiring_60 1000 60
      (by decide) rfl rfl rfl).1.mpr (by decide)
  · exact ((is_valid_contract 1000).2.2.2 token_expiring_25 1000 25
      (by decide) rfl rfl rfl).2.mpr (by decide)

theorem csrf_single_use_witness :
    validate_state_parameter (some "abc") "abc" = (true, none)
    ∧ validate_state_parameter (some "abc") "x" = (false, some "abc") :=
  ⟨(csrf_single_use "abc" "x" (by decide) (by decide)).2.1,
   (csrf_single_use "abc" "x" (by decide) (by decide)).2.2.2.1⟩

theorem exchange_consumes_state_first_witness :
    exchange_code_for_token pp0 (some "abc") emptyState 0 "code" "abc" response_400
      = (.error (.OAuthAccessTokenError "oops"), none, emptyState)
    ∧ exchange_code_for_token pp0 none emptyState 0 "code" "abc" response_400
      = (.error (.OAuthStateError "Invalid state parameter - possible CSRF attack"),
          none, emptyState) :=
  exchange_consumes_state_first pp0 emptyState 0 "code" "abc" response_400
    (.OAuthAccessTokenError "oops") (by decide) rfl

/-- A concrete non-empty token state for evaluating the store. -/
def sample_state : TokenState :=
  { access_token := some "T", token_type := some "Bearer" }

/-- Concrete instantiations of the external primitives, for evaluating the
store theorems on explicit inputs: a 32-byte keyed digest, a
length-doubling key derivation, and a two-point serialization. -/
def toy_prims : CryptoPrims :=
  { sha256_fixed_key := List.replicate 32 7,
    generate_encryption_key := fun salt => salt ++ salt,
    hmac_sha256 := fun k m => (k ++ (m ++ List.replicate 32 0)).take 32,
    dumps := fun s => if s = sample_state then [65] else [66],
    loads := fun b => if b = [65] then some sample_state else none }

theorem toy_hmac_len (k m : List Nat) : (toy_prims.hmac_sha256 k m).length = 32 := by
  simp only [toy_prims, List.length_take, List.length_append, List.length_replicate]
  omega

theorem state_roundtrip_and_salt_freshness_witness :
    decrypt_state_fixed toy_prims
        (encrypt_state_fixed toy_prims (List.replicate 16 9) sample_state)
      = sample_state
    ∧ decrypt_state_dynamic toy_prims
        (encrypt_state_dynamic toy_prims (List.replicate 16 1) (List.replicate 16 0)
          sample_state) = sample_state
    ∧ encrypt_state_dynamic toy_prims (List.replicate 16 1) (List.replicate 16 0)
        sample_state
      ≠ encrypt_state_dynamic toy_prims (List.replicate 16 2) (List.replicate 16 3)
        sample_state :=
  state_roundtrip_and_salt_freshness toy_prims sample_state
    (List.replicate 16 9) (List.replicate 16 0) (List.replicate 16 3)
    (List.replicate 16 1) (List.replicate 16 2)
    (by decide) toy_hmac_len rfl rfl rfl rfl (by decide) (by decide) (by decide)

theorem legacy_blob_roundtrip_witness :
    decrypt_state_dynamic toy_prims
      (encrypt_with_key toy_prims.hmac_sha256 (List.replicate 16 4)
        (toy_prims.dumps sample_state)
        (toy_prims.generate_encryption_key old_salt)) = sample_state :=
  legacy_blob_roundtrip toy_prims sample_state (List.replicate 16 4)
    rfl toy_hmac_len (by decide)

theorem decrypt_state_total_witness :
    decrypt_state_fixed toy_prims [0, 1, 2] = emptyState
    ∧ decrypt_state_dynamic toy_prims [0, 1, 2] = emptyState :=
  (decrypt_state_total toy_prims).2.1 [0, 1, 2] (by decide)

theorem decrypt_with_key_index_error_witness :
    (List.replicate 16 5
        ++ toy_prims.hmac_sha256 (List.replicate 32 6) (List.replicate 16 5)).length = 48
    ∧ decrypt_with_key toy_prims.hmac_sha256
        (List.replicate 16 5
          ++ toy_prims.hmac_sha256 (List.replicate 32 6) (List.replicate 16 5))
        (List.replicate 32 6) = .error .IndexError :=
  decrypt_with_key_index_error toy_prims.hmac_sha256
    (List.replicate 16 5) (List.replicate 32 6) rfl
    (toy_hmac_len (List.replicate 32 6) (List.replicate 16 5))

end Cruds
